import Mathlib

set_option linter.unusedVariables false

/-!
Shallow embedding of the `bedrock-web-data-hub` client library
(`src/RemoteStorage.js`, `src/MasterKey.js`, `src/KeyCache.js`).

JavaScript values flowing through the library are modelled by the `Json`
inductive; JS `undefined` is modelled by `Option`.  Platform primitives
(WebCrypto HMAC / AES-GCM+A256KW pipeline, `JSON.parse`) are not part of this
repository and are modelled as fields of a `Platform` record; the repository
code is embedded on top of them.  `JSON.stringify` is embedded concretely for
the value subset used here, because claims depend on the exact serialized
text.  Errors thrown by the JS code are modelled with `Except JsError`.
-/

/-- Model of JSON-representable JavaScript values.  Object fields are kept in
insertion order, as JS does for string keys. -/
inductive Json where
  | null : Json
  | bool : Bool → Json
  | num : Int → Json
  | str : String → Json
  | arr : List Json → Json
  | obj : List (String × Json) → Json
deriving BEq, Repr

/-- JS string escaping as performed by `JSON.stringify` for the characters
that can appear in this development (quote, backslash, newline, tab). -/
def jsonEscapeChar (c : Char) : String :=
  if c = '"' then "\\\""
  else if c = '\\' then "\\\\"
  else if c = '\n' then "\\n"
  else if c = '\t' then "\\t"
  else String.singleton c

/-- Escape a whole string for JSON serialization. -/
def jsonEscape (s : String) : String :=
  String.join (s.data.map jsonEscapeChar)

mutual

/-- Embedding of `JSON.stringify` on the modelled value subset. -/
def Json.stringify : Json → String
  | Json.null => "null"
  | Json.bool true => "true"
  | Json.bool false => "false"
  | Json.num n => toString n
  | Json.str s => "\"" ++ jsonEscape s ++ "\""
  | Json.arr xs => "[" ++ Json.stringifyList xs ++ "]"
  | Json.obj fs => "\x7b" ++ Json.stringifyFields fs ++ "\x7d"

/-- Comma-separated serialization of array elements. -/
def Json.stringifyList : List Json → String
  | [] => ""
  | [x] => Json.stringify x
  | x :: xs => Json.stringify x ++ "," ++ Json.stringifyList xs

/-- Comma-separated serialization of object fields, in insertion order. -/
def Json.stringifyFields : List (String × Json) → String
  | [] => ""
  | [(k, v)] => "\"" ++ jsonEscape k ++ "\":" ++ Json.stringify v
  | (k, v) :: fs =>
      "\"" ++ jsonEscape k ++ "\":" ++ Json.stringify v ++ "," ++
        Json.stringifyFields fs

end

/-- JS property lookup `o[k]` on the field list of an object (fields are
unique in objects built from literals or JSON). -/
def Json.getField (fields : List (String × Json)) (k : String) : Option Json :=
  (fields.find? (fun kv => kv.1 = k)).map (fun kv => kv.2)

/-- Embedding of `TextEncoder().encode`: byte encoding of a string.  Unicode
code points are used as bytes; this agrees with UTF-8 on the ASCII strings
this development evaluates, and the claims do not depend on multi-byte
encodings. -/
def utf8 (s : String) : List Nat :=
  s.data.map Char.toNat

/-- Embedding of `TextDecoder().decode`, the inverse of `utf8`. -/
def utf8Decode (bytes : List Nat) : String :=
  String.mk (bytes.map Char.ofNat)

/-- Modelled from the spec (§4.A CodecPrimitives): the repository file
`base64url.js` is not under `src/`; unpadded URL-safe base64 per the spec.
Only the encoding direction is needed by the embedded code. -/
def base64urlChar (n : Nat) : Char :=
  ("ABCDEFGHIJKLMNOPQRSTUVWXYZabcdefghijklmnopqrstuvwxyz0123456789-_".data).getD
    n 'A'

/-- Modelled from the spec (§4.A): base64url encoding of a byte list, no
padding characters. -/
def base64urlEncode : List Nat → String
  | [] => ""
  | [a] =>
      let a := a % 256
      String.mk [base64urlChar (a / 4), base64urlChar (a % 4 * 16)]
  | [a, b] =>
      let a := a % 256
      let b := b % 256
      String.mk [base64urlChar (a / 4), base64urlChar (a % 4 * 16 + b / 16),
        base64urlChar (b % 16 * 4)]
  | a :: b :: c :: rest =>
      let a := a % 256
      let b := b % 256
      let c := c % 256
      String.mk [base64urlChar (a / 4), base64urlChar (a % 4 * 16 + b / 16),
        base64urlChar (b % 16 * 4 + c / 64), base64urlChar (c % 64)] ++
        base64urlEncode rest

/-- A JWE header as produced by `MasterKey.encrypt`. -/
structure JweHeader where
  alg : String
  enc : String
deriving BEq, Repr

/-- A document JWE (`unprotected` header variant) as in `MasterKey.encrypt`. -/
structure Jwe where
  unprotected : JweHeader
  encrypted_key : String
  iv : String
  ciphertext : String
  tag : String
deriving BEq, Repr

/-- Platform primitives consumed by the repository code but provided by the
host (WebCrypto, `JSON.parse`).  `hmacSign` is `crypto.subtle.sign("HMAC")`
(a deterministic function of key and data); `encryptBytes`/`decryptBytes`
bundle the AES-KW + AES-GCM pipeline of `MasterKey.encrypt`/`decrypt`
(freshness of the CEK and IV is outside the claims modelled here);
`jsonParse` is `JSON.parse` returning `none` on a parse error. -/
structure Platform where
  hmacSign : List Nat → List Nat → List Nat
  encryptBytes : List Nat → List Nat → Jwe
  decryptBytes : List Nat → Jwe → Option (List Nat)
  jsonParse : String → Option Json

/-- Embedding of a `MasterKey` instance after `_init`: the derived AES-KW
key-encryption key and the derived index HMAC key (`this.kek`, `this.hmac`).
Keys are byte lists. -/
structure MasterKey where
  kek : List Nat
  hmac : List Nat
deriving BEq, Repr

/-- Embedding of `MasterKey.generate` + `MasterKey._init` given the generated
master secret: `kek = HMAC(master, utf8("kek"))`,
`hmac = HMAC(master, utf8("hmac"))` (`_deriveKey`). -/
def MasterKey.init (p : Platform) (master : List Nat) : MasterKey :=
  ⟨p.hmacSign master (utf8 "kek"), p.hmacSign master (utf8 "hmac")⟩

/-- Embedding of `MasterKey.blind` on string data: UTF-8 encode, HMAC with
the derived `hmac` key, base64url-encode the signature. -/
def MasterKey.blind (p : Platform) (mk : MasterKey) (data : String) : String :=
  base64urlEncode (p.hmacSign mk.hmac (utf8 data))

/-- Embedding of `MasterKey.encryptObject`: `JSON.stringify` the object and
run the byte-level encryption pipeline under `kek`. -/
def MasterKey.encryptObject (p : Platform) (mk : MasterKey) (obj : Json) : Jwe :=
  p.encryptBytes mk.kek (utf8 (Json.stringify obj))

/-- Embedding of `MasterKey.decryptObject`: decrypt the JWE under `kek`,
UTF-8 decode and `JSON.parse`.  `none` models any thrown
format/authentication/parse error. -/
def MasterKey.decryptObject (p : Platform) (mk : MasterKey) (jwe : Jwe) :
    Option Json :=
  (p.decryptBytes mk.kek jwe).bind (fun bytes => p.jsonParse (utf8Decode bytes))

/-- Errors thrown by the embedded JS code.  `named` models a plain `Error`
whose `name` property was reassigned (`DuplicateError`, `NotFoundError`);
`transport` models a rethrown axios error carrying a response status. -/
inductive JsError where
  | error : String → JsError
  | typeError : String → JsError
  | named : String → String → JsError
  | transport : Nat → JsError
deriving BEq, Repr

/-- KeyCache state (`src/KeyCache.js`): the cached key and the stored
expiration timeout.  The timer handle is real time and is not modelled. -/
structure KeyCache where
  masterKey : Option MasterKey
  timeout : Nat
deriving BEq, Repr

/-- A fresh `new KeyCache()`. -/
def KeyCache.initial : KeyCache :=
  ⟨none, 0⟩

/-- Embedding of `KeyCache.update`: store the key and the provided timeout,
defaulting to `DEFAULT_KEY_TIMEOUT = 60000` (the rearmed timer itself is not
modelled). -/
def KeyCache.update (kc : KeyCache) (mk : MasterKey) (timeout : Option Nat) :
    KeyCache :=
  ⟨some mk, timeout.getD 60000⟩

/-- A value that may sit in the `masterKey` property of a listener response:
either an actual `MasterKey` instance or some other JS value (which fails the
`instanceof MasterKey` check). -/
inductive MKField where
  | masterKey : MasterKey → MKField
  | other : MKField
deriving BEq, Repr

/-- The value the listener-controlled promise resolves to in `_getMasterKey`.
`undef` models the default `Promise.resolve()` (listener registered but
`respondWith` never called) or a promise resolving to `undefined`; `obj`
models a resolved object with optional `masterKey` and `timeout` fields. -/
inductive RespondValue where
  | undef : RespondValue
  | obj : Option MKField → Option Nat → RespondValue
deriving BEq, Repr

/-- URL endpoints built in the `RemoteStorage` constructor. -/
structure Urls where
  masterKey : String
  documents : String
  query : String
deriving BEq, Repr

/-- Embedding of `encodeURIComponent`.  The blinded tokens fed to it are
base64url strings over `A-Z a-z 0-9 - _`, all of which percent-encoding
leaves unchanged, so on every string this development builds URLs from the
function is the identity. -/
def encodeURIComponent (s : String) : String :=
  s

/-- State of a `RemoteStorage` instance.  `indexes` models the `Set` of index
attribute names (insertion order, no duplicates); `listener` models the
registered `masterKeyRequest` listener by the value its `respondWith` promise
resolves to (`none` when no listener is registered). -/
structure RemoteStorage where
  accountId : String
  indexes : List String
  keyCache : KeyCache
  listener : Option RespondValue
  urls : Urls

/-- Embedding of the `RemoteStorage` constructor with the default
`baseUrl = "/private-storage"`. -/
def RemoteStorage.create (accountId : String) : RemoteStorage :=
  let root := "/private-storage/" ++ encodeURIComponent accountId
  { accountId := accountId
    indexes := []
    keyCache := KeyCache.initial
    listener := none
    urls :=
      { masterKey := root ++ "/master-key"
        documents := root ++ "/documents"
        query := root ++ "/query" } }

/-- Embedding of `RemoteStorage._getMasterKey`.  On a cache hit the cached
key is returned (the `resetTimeout` call only rearms the unmodelled timer).
On a miss: no listener means `NotFoundError("Master key not found.")`;
otherwise the listener response is awaited and destructured — destructuring
`undefined` throws a `TypeError`; a non-`MasterKey` value in the `masterKey`
field throws a `TypeError`; a `MasterKey` is cached via `KeyCache.update` and
returned.  The returned cache is the instance cache after the call. -/
def RemoteStorage.getMasterKey (st : RemoteStorage) :
    Except JsError (MasterKey × KeyCache) :=
  match st.keyCache.masterKey with
  | some k => Except.ok (k, st.keyCache)
  | none =>
    match st.listener with
    | none => Except.error (JsError.named "NotFoundError" "Master key not found.")
    | some RespondValue.undef =>
        Except.error (JsError.typeError
          "Cannot destructure property masterKey of undefined.")
    | some (RespondValue.obj mkField timeout) =>
      match mkField with
      | some (MKField.masterKey k) =>
          Except.ok (k, KeyCache.update st.keyCache k timeout)
      | _ =>
          Except.error (JsError.typeError
            "\"masterKey\" must be a MasterKey instance.")

/-- A blinded attribute as produced by `RemoteStorage._blindAttribute`. -/
structure BlindedAttribute where
  name : String
  value : String
deriving BEq, Repr

/-- The server-visible encrypted document record assembled by
`RemoteStorage._encrypt`. -/
structure EncryptedDocument where
  id : String
  attributes : List BlindedAttribute
  jwe : Jwe
deriving BEq, Repr

/-- JS `typeof x === "object" && x` (a truthy object): objects and arrays;
`null` is excluded by truthiness. -/
def isTruthyObject : Json → Bool
  | Json.obj _ => true
  | Json.arr _ => true
  | _ => false

/-- JS `typeof x === "string" && x` (a truthy, i.e. non-empty, string). -/
def isTruthyString : Json → Bool
  | Json.str s => decide (s ≠ "")
  | _ => false

/-- JS `typeof x === "string"`. -/
def isStringJson : Json → Bool
  | Json.str _ => true
  | _ => false

/-- The field list a JS `for key in x` loop walks: an object yields its
fields in insertion order; an array yields its index keys `"0"`, `"1"`, …;
other values yield nothing. -/
def jsEnumerate : Json → List (String × Json)
  | Json.obj fs => fs
  | Json.arr xs => xs.enum.map (fun p => (toString p.1, p.2))
  | _ => []

/-- JS string coercion used only on values already validated to be strings. -/
def jsStringOrEmpty : Json → String
  | Json.str s => s
  | _ => ""

/-- The `doc.id` access plus the validation
`doc && typeof doc === "object" && typeof doc.id === "string"` from
`RemoteStorage._encrypt`: returns the id exactly when the check passes
(arrays have no `id` property and so fail it). -/
def Json.docIdString : Json → Option String
  | Json.obj fields =>
    match Json.getField fields "id" with
    | some (Json.str s) => some s
    | _ => none
  | _ => none

/-- Embedding of `RemoteStorage._blindAttribute`.  Note the source serializes
`JSON.stringify({key: value})`: the serialized object uses the literal
property name `key`, not the attribute key held by the `key` variable. -/
def RemoteStorage._blindAttribute (p : Platform) (masterKey : MasterKey)
    (key : String) (value : Json) : BlindedAttribute :=
  let value := Json.stringify (Json.obj [("key", value)])
  ⟨MasterKey.blind p masterKey key, MasterKey.blind p masterKey value⟩

/-- Embedding of `RemoteStorage._blindId`. -/
def RemoteStorage._blindId (p : Platform) (masterKey : MasterKey)
    (id : String) : String :=
  MasterKey.blind p masterKey id

/-- Embedding of `RemoteStorage._createAttributes`: walk the document's
enumerable keys in order and blind each one contained in the index set. -/
def RemoteStorage._createAttributes (p : Platform) (st : RemoteStorage)
    (masterKey : MasterKey) (doc : Json) : List BlindedAttribute :=
  (jsEnumerate doc).filterMap (fun kv =>
    if st.indexes.contains kv.1 then
      some (RemoteStorage._blindAttribute p masterKey kv.1 kv.2)
    else none)

/-- Embedding of `RemoteStorage._encrypt`: validate that the doc is an
object with a string `id` (before any key acquisition, blinding or
encryption), then obtain the master key and assemble the blinded id, the
blinded attributes and the JWE body. -/
def RemoteStorage._encrypt (p : Platform) (st : RemoteStorage) (doc : Json) :
    Except JsError EncryptedDocument :=
  match doc.docIdString with
  | none =>
      Except.error (JsError.typeError
        "\"doc\" must be an object with an \"id\" string property.")
  | some id =>
    match st.getMasterKey with
    | Except.error e => Except.error e
    | Except.ok (masterKey, _) =>
        Except.ok
          ⟨RemoteStorage._blindId p masterKey id,
            RemoteStorage._createAttributes p st masterKey doc,
            MasterKey.encryptObject p masterKey doc⟩

/-- Embedding of `RemoteStorage._decrypt`.  The structural validation of the
incoming record (string `id`, object `jwe`) holds by construction of
`EncryptedDocument`.  The master key is obtained, the JWE decrypted
(`none` models a thrown decryption/parse error), and the result is checked
to be an object with a string `id`; the cleartext object is returned, the
outer blinded id is not. -/
def RemoteStorage._decrypt (p : Platform) (st : RemoteStorage)
    (encryptedDoc : EncryptedDocument) : Except JsError Json :=
  match st.getMasterKey with
  | Except.error e => Except.error e
  | Except.ok (masterKey, _) =>
    match MasterKey.decryptObject p masterKey encryptedDoc.jwe with
    | none => Except.error (JsError.error "Decryption failed.")
    | some doc =>
      match doc.docIdString with
      | some _ => Except.ok doc
      | none => Except.error (JsError.error "Invalid decrypted document.")

/-- Embedding of `RemoteStorage._getEncryptedDocUrl`: obtain the master key,
blind the document id and append the URI-escaped token to the documents
URL. -/
def RemoteStorage._getEncryptedDocUrl (p : Platform) (st : RemoteStorage)
    (id : String) : Except JsError String :=
  match st.getMasterKey with
  | Except.error e => Except.error e
  | Except.ok (masterKey, _) =>
      Except.ok (st.urls.documents ++ "/" ++
        encodeURIComponent (RemoteStorage._blindId p masterKey id))

/-- Embedding of `RemoteStorage.insert`: encrypt and POST; a 409 response
(modelled by `conflict = true`) raises `DuplicateError`, otherwise the call
resolves to `true`. -/
def RemoteStorage.insert (p : Platform) (st : RemoteStorage) (doc : Json)
    (conflict : Bool) : Except JsError Bool :=
  match RemoteStorage._encrypt p st doc with
  | Except.error e => Except.error e
  | Except.ok _encrypted =>
      if conflict then
        Except.error (JsError.named "DuplicateError" "Duplicate error.")
      else Except.ok true

/-- Embedding of `RemoteStorage.update`: encrypt, PUT to
`documents/{blinded id}`, and resolve to `true` (the JS function returns the
boolean `true`, not the stored record). -/
def RemoteStorage.update (p : Platform) (st : RemoteStorage) (doc : Json) :
    Except JsError Bool :=
  match RemoteStorage._encrypt p st doc with
  | Except.error e => Except.error e
  | Except.ok _encrypted => Except.ok true

/-- The PUT request sent by `RemoteStorage.update` (lines 129-131 of
`RemoteStorage.js`): target URL built from the blinded id, and the
`EncryptedDocument` body. -/
def RemoteStorage.updateRequest (p : Platform) (st : RemoteStorage)
    (doc : Json) : Except JsError (String × EncryptedDocument) :=
  match RemoteStorage._encrypt p st doc with
  | Except.error e => Except.error e
  | Except.ok encrypted =>
      Except.ok (st.urls.documents ++ "/" ++ encodeURIComponent encrypted.id,
        encrypted)

/-- Embedding of `RemoteStorage.delete`: blind the id to build the URL and
DELETE; a 404 (modelled by `found = false`) resolves to `false`, otherwise
`true`. -/
def RemoteStorage.deleteDoc (p : Platform) (st : RemoteStorage) (id : String)
    (found : Bool) : Except JsError Bool :=
  match RemoteStorage._getEncryptedDocUrl p st id with
  | Except.error e => Except.error e
  | Except.ok _url => Except.ok found

/-- Embedding of `RemoteStorage.get`: blind the id to build the URL and GET;
a 404 (modelled by `response = none`) raises
`NotFoundError("Document not found")`, otherwise the response is
decrypted. -/
def RemoteStorage.get (p : Platform) (st : RemoteStorage) (id : String)
    (response : Option EncryptedDocument) : Except JsError Json :=
  match RemoteStorage._getEncryptedDocUrl p st id with
  | Except.error e => Except.error e
  | Except.ok _url =>
    match response with
    | none => Except.error (JsError.named "NotFoundError" "Document not found")
    | some encryptedDoc => RemoteStorage._decrypt p st encryptedDoc

/-- The parameter validation at the top of `RemoteStorage.find`
(lines 203-227): returns the thrown error, or `none` when validation
passes.  `none` for a parameter models JS `undefined`. -/
def findValidate (equals has : Option Json) : Option JsError :=
  match equals, has with
  | none, none =>
      some (JsError.error "Either \"equals\" or \"has\" must be defined.")
  | some _, some _ =>
      some (JsError.error
        "Only one of \"equals\" or \"has\" may be defined at once.")
  | some eq, none =>
    match eq with
    | Json.arr xs =>
        if xs.all isTruthyObject then none
        else some (JsError.typeError "\"equals\" must be an array of objects.")
    | _ =>
        if isTruthyObject eq then none
        else some (JsError.typeError
          "\"equals\" must be an object or an array of objects.")
  | none, some h =>
    match h with
    | Json.arr xs =>
        if xs.all isTruthyString then none
        else some (JsError.typeError "\"has\" must be an array of strings.")
    | _ =>
        if isStringJson h then none
        else some (JsError.typeError
          "\"has\" must be a string or an array of strings.")

/-- The blinded query payload POSTed by `RemoteStorage.find`. -/
structure Query where
  equals : Option (List (List (String × String)))
  has : Option (List String)
deriving BEq, Repr

/-- Translation of one `equals` entry inside `find`: each own key of the
object is blinded with `_blindAttribute` and collected as a
`name ↦ value` pair. -/
def RemoteStorage._blindEqual (p : Platform) (masterKey : MasterKey)
    (equal : Json) : List (String × String) :=
  (jsEnumerate equal).map (fun kv =>
    let attr := RemoteStorage._blindAttribute p masterKey kv.1 kv.2
    (attr.name, attr.value))

/-- Embedding of `RemoteStorage.find`: validate the filter (before any
master-key acquisition or request), obtain the master key, translate the
filter into a blinded `Query`, POST it, and decrypt every returned document.
`response` models the server's reply to the query. -/
def RemoteStorage.find (p : Platform) (st : RemoteStorage)
    (equals has : Option Json) (response : List EncryptedDocument) :
    Except JsError (Query × List Json) :=
  match findValidate equals has with
  | some e => Except.error e
  | none =>
    match st.getMasterKey with
    | Except.error e => Except.error e
    | Except.ok (masterKey, _) =>
      let query : Query :=
        match equals with
        | some eq =>
          let eqList := match eq with
            | Json.arr xs => xs
            | _ => [eq]
          ⟨some (eqList.map (RemoteStorage._blindEqual p masterKey)), none⟩
        | none =>
          match has with
          | some h =>
            let hasList := match h with
              | Json.arr xs => xs
              | _ => [h]
            ⟨none, some (hasList.map (fun x =>
              MasterKey.blind p masterKey (jsStringOrEmpty x)))⟩
          | none => ⟨none, none⟩
      match response.mapM (RemoteStorage._decrypt p st) with
      | Except.error e => Except.error e
      | Except.ok docs => Except.ok (query, docs)

/-- Modelled from the spec (§6 DocumentTransport): the server side of the
master-key endpoint, which is an external collaborator; only whether a
wrapped master key is stored matters to the claims. -/
structure ServerState where
  hasMasterKey : Bool
deriving BEq, Repr

/-- Modelled from the spec (§6): `PUT master-key` with the only-if-absent
precondition (`If-None-Match: *`) responds with status 304 when a master key
already exists and stores the key otherwise. -/
def ServerState.putMasterKeyIfAbsent (s : ServerState) :
    Option Nat × ServerState :=
  if s.hasMasterKey then (some 304, s) else (none, ⟨true⟩)

/-- Embedding of `RemoteStorage.createMasterKey`.  The CSPRNG output behind
`MasterKey.generate` is supplied as `masterSecret`; the password wrapping
does not influence control flow and carries no state used by the claims.  A
304 response raises `DuplicateError`; any other error status is rethrown; on
success the key is cached (default timeout) and the call resolves to
`true`. -/
def RemoteStorage.createMasterKey (p : Platform) (st : RemoteStorage)
    (server : ServerState) (masterSecret : List Nat) :
    Except JsError (Bool × RemoteStorage × ServerState) :=
  let masterKey := MasterKey.init p masterSecret
  match server.putMasterKeyIfAbsent with
  | (none, server2) =>
      Except.ok (true,
        { st with keyCache := KeyCache.update st.keyCache masterKey none },
        server2)
  | (some 304, _) =>
      Except.error (JsError.named "DuplicateError" "Duplicate error.")
  | (some status, _) => Except.error (JsError.transport status)

/-- A concrete document used to evaluate the embedded operations. -/
def demoDoc : Json :=
  Json.obj [("id", Json.str "foo"), ("a", Json.num 1)]

/-- A concrete `Platform` instantiation for evaluating the embedded code:
HMAC is an injective pairing of key and data, the cipher stores the payload
bytes in the `ciphertext` field, and `jsonParse` recognizes the
serializations this development evaluates. -/
def demoPlatform : Platform :=
  { hmacSign := fun key data => key ++ 0 :: data
    encryptBytes := fun _ data =>
      ⟨⟨"A256KW", "A256GCM"⟩, "", "", String.mk (data.map Char.ofNat), ""⟩
    decryptBytes := fun _ jwe => some (jwe.ciphertext.data.map Char.toNat)
    jsonParse := fun s =>
      if s = Json.stringify demoDoc then some demoDoc else none }

/-- A concrete master key derived from a fixed secret. -/
def demoMasterKey : MasterKey :=
  MasterKey.init demoPlatform [1, 2, 3]

/-- A concrete `RemoteStorage` with one index attribute and a cached master
key. -/
def demoStorage : RemoteStorage :=
  let st := RemoteStorage.create "test"
  { st with
      indexes := ["a"]
      keyCache := KeyCache.update st.keyCache demoMasterKey none }

/-- A concrete `RemoteStorage` with an empty cache and a listener that never
responds. -/
def undefListenerStorage : RemoteStorage :=
  { RemoteStorage.create "test" with listener := some RespondValue.undef }

/-- Decoding the bytes of a string recovers the string: the byte encoding is
code-point-wise and `Char.ofNat ∘ Char.toNat` is the identity. -/
theorem utf8Decode_utf8 (s : String) : utf8Decode (utf8 s) = s := by
  unfold utf8Decode utf8
  rw [List.map_map]
  have h : (Char.ofNat ∘ Char.toNat) = id := funext (fun c => Char.ofNat_toNat c)
  rw [h, List.map_id]

/-- When the byte-level cipher and `JSON.parse` round-trip on a document's
serialization, `decryptObject` inverts `encryptObject` on it. -/
theorem decryptObject_encryptObject (p : Platform) (k : MasterKey) (doc : Json)
    (hcipher : p.decryptBytes k.kek
        (p.encryptBytes k.kek (utf8 (Json.stringify doc))) =
      some (utf8 (Json.stringify doc)))
    (hparse : p.jsonParse (Json.stringify doc) = some doc) :
    MasterKey.decryptObject p k (MasterKey.encryptObject p k doc) = some doc := by
  unfold MasterKey.decryptObject MasterKey.encryptObject
  rw [hcipher]
  show p.jsonParse (utf8Decode (utf8 (Json.stringify doc))) = some doc
  rw [utf8Decode_utf8]
  exact hparse

/-- A filterMap whose function is a guarded map is the map over the
filter. -/
theorem filterMap_guard_eq_map_filter {α β : Type} (f : α → β) (q : α → Bool)
    (l : List α) :
    l.filterMap (fun x => if q x then some (f x) else none) =
      (l.filter q).map f := by
  induction l with
  | nil => rfl
  | cons x xs ih =>
    by_cases h : q x <;>
      simp [List.filterMap_cons, List.filter_cons, h, ih]

/-- Unfolding of `_createAttributes` on an object: one blinded attribute per
document key contained in the index set, in document order. -/
theorem createAttributes_eq_filter_map (p : Platform) (st : RemoteStorage)
    (k : MasterKey) (fields : List (String × Json)) :
    RemoteStorage._createAttributes p st k (Json.obj fields) =
      (fields.filter (fun kv => st.indexes.contains kv.1)).map
        (fun kv => RemoteStorage._blindAttribute p k kv.1 kv.2) := by
  show (fields.filterMap fun kv =>
      if st.indexes.contains kv.1 then
        some (RemoteStorage._blindAttribute p k kv.1 kv.2)
      else none) = _
  exact filterMap_guard_eq_map_filter _ _ fields

/-- When the cache holds a key and the doc has a string id, `_encrypt`
succeeds with the blinded id, the blinded attributes and the JWE body. -/
theorem encrypt_ok (p : Platform) (st : RemoteStorage) (k : MasterKey)
    (doc : Json) (id : String)
    (hcache : st.keyCache.masterKey = some k)
    (hid : doc.docIdString = some id) :
    RemoteStorage._encrypt p st doc =
      Except.ok
        ⟨RemoteStorage._blindId p k id,
          RemoteStorage._createAttributes p st k doc,
          MasterKey.encryptObject p k doc⟩ := by
  unfold RemoteStorage._encrypt RemoteStorage.getMasterKey
  rw [hid, hcache]

/-- When the cache holds a key, the JWE decrypts to `doc`, and `doc` has a
string id, `_decrypt` returns `doc`. -/
theorem decrypt_ok (p : Platform) (st : RemoteStorage) (k : MasterKey)
    (ed : EncryptedDocument) (doc : Json) (id : String)
    (hcache : st.keyCache.masterKey = some k)
    (hdec : MasterKey.decryptObject p k ed.jwe = some doc)
    (hid : doc.docIdString = some id) :
    RemoteStorage._decrypt p st ed = Except.ok doc := by
  simp only [RemoteStorage._decrypt, RemoteStorage.getMasterKey, hcache, hdec,
    hid]

/-- C6: on a cache miss, a facade operation needing the master key fails
with `NotFoundError("Master key not found.")` when no listener is
registered; fails with a `TypeError` when the listener's future resolves to
a value whose `masterKey` is not a `MasterKey` instance; and when it
resolves to a `MasterKey`, that key is stored in the cache with the provided
timeout (default `60000`) and returned. -/
theorem c6_master_key_acquisition (st : RemoteStorage)
    (hmiss : st.keyCache.masterKey = none) :
    (st.listener = none →
      st.getMasterKey =
        Except.error (JsError.named "NotFoundError" "Master key not found.")) ∧
    (∀ mkField timeout,
      st.listener = some (RespondValue.obj mkField timeout) →
      ((mkField = none ∨ mkField = some MKField.other) →
        st.getMasterKey = Except.error (JsError.typeError
          "\"masterKey\" must be a MasterKey instance.")) ∧
      (∀ k, mkField = some (MKField.masterKey k) →
        st.getMasterKey = Except.ok (k, ⟨some k, timeout.getD 60000⟩))) := by
  refine ⟨fun h => ?_, fun mkField timeout h => ⟨fun h2 => ?_, fun k hk => ?_⟩⟩
  · unfold RemoteStorage.getMasterKey
    rw [hmiss, h]
  · unfold RemoteStorage.getMasterKey
    rw [hmiss, h]
    rcases h2 with h2 | h2 <;> rw [h2]
  · unfold RemoteStorage.getMasterKey
    rw [hmiss, h, hk]
    rfl

/-- A concrete storage with no cached key and no listener. -/
def noListenerStorage : RemoteStorage :=
  RemoteStorage.create "test"

/-- A concrete storage whose listener responds with a `MasterKey` and a
timeout of 1234. -/
def respondingStorage : RemoteStorage :=
  { RemoteStorage.create "test" with
      listener := some (RespondValue.obj (some (MKField.masterKey demoMasterKey))
        (some 1234)) }

/-- A concrete storage whose listener responds with a non-`MasterKey`
value. -/
def badRespondingStorage : RemoteStorage :=
  { RemoteStorage.create "test" with
      listener := some (RespondValue.obj (some MKField.other) none) }

/-- Witness for C6 at concrete storages covering the three cases. -/
theorem c6_witness :
    noListenerStorage.getMasterKey =
      Except.error (JsError.named "NotFoundError" "Master key not found.") ∧
    badRespondingStorage.getMasterKey =
      Except.error (JsError.typeError
        "\"masterKey\" must be a MasterKey instance.") ∧
    respondingStorage.getMasterKey =
      Except.ok (demoMasterKey, ⟨some demoMasterKey, 1234⟩) :=
  ⟨(c6_master_key_acquisition noListenerStorage rfl).1 rfl,
    ((c6_master_key_acquisition badRespondingStorage rfl).2 _ _ rfl).1
      (Or.inr rfl),
    ((c6_master_key_acquisition respondingStorage rfl).2 _ _ rfl).2
      demoMasterKey rfl⟩

/-- C10: on a cache miss with a registered listener that never calls
`respondWith` (or responds with a promise resolving to `undefined`), the
destructuring of the default `Promise.resolve()` result fails, so
`_getMasterKey` rejects with a `TypeError` — it neither returns a key nor
caches anything. -/
theorem c10_undef_response_type_error (st : RemoteStorage)
    (hmiss : st.keyCache.masterKey = none)
    (hl : st.listener = some RespondValue.undef) :
    st.getMasterKey = Except.error (JsError.typeError
      "Cannot destructure property masterKey of undefined.") := by
  unfold RemoteStorage.getMasterKey
  rw [hmiss, hl]

/-- Witness for C10 at a concrete storage. -/
theorem c10_witness :
    undefListenerStorage.getMasterKey = Except.error (JsError.typeError
      "Cannot destructure property masterKey of undefined.") :=
  c10_undef_response_type_error undefListenerStorage rfl rfl

/-- C7: `createMasterKey` raises `DuplicateError` exactly when the
conditional PUT is rejected with status 304, i.e. when a master key already
exists; on success the freshly generated key is cached and `true` is
returned, and a second successive call then raises `DuplicateError`. -/
theorem c7_create_master_key (p : Platform) (st st3 : RemoteStorage)
    (server : ServerState) (secret secret2 : List Nat) :
    (server.hasMasterKey = true →
      RemoteStorage.createMasterKey p st server secret =
        Except.error (JsError.named "DuplicateError" "Duplicate error.")) ∧
    (server.hasMasterKey = false →
      ∃ st2 server2,
        RemoteStorage.createMasterKey p st server secret =
          Except.ok (true, st2, server2) ∧
        st2.keyCache.masterKey = some (MasterKey.init p secret) ∧
        st2.keyCache.timeout = 60000 ∧
        RemoteStorage.createMasterKey p st3 server2 secret2 =
          Except.error (JsError.named "DuplicateError" "Duplicate error.")) := by
  constructor
  · intro h
    unfold RemoteStorage.createMasterKey ServerState.putMasterKeyIfAbsent
    rw [h]
    rfl
  · intro h
    refine ⟨{ st with keyCache :=
        KeyCache.update st.keyCache (MasterKey.init p secret) none },
      ⟨true⟩, ?_, rfl, rfl, rfl⟩
    unfold RemoteStorage.createMasterKey ServerState.putMasterKeyIfAbsent
    rw [h]
    rfl

/-- Witness for C7: a fresh server accepts the first call and caching
happens; the server then holding a key rejects the second call. -/
theorem c7_witness :
    ∃ st2 server2,
      RemoteStorage.createMasterKey demoPlatform noListenerStorage ⟨false⟩
          [9, 9] = Except.ok (true, st2, server2) ∧
      st2.keyCache.masterKey = some (MasterKey.init demoPlatform [9, 9]) ∧
      st2.keyCache.timeout = 60000 ∧
      RemoteStorage.createMasterKey demoPlatform noListenerStorage server2
          [8, 8] =
        Except.error (JsError.named "DuplicateError" "Duplicate error.") :=
  (c7_create_master_key demoPlatform noListenerStorage noListenerStorage
    ⟨false⟩ [9, 9] [8, 8]).2 rfl

/-- C8 (amended): `_encrypt` validates that the doc is an object with a
string `id` — possibly empty — and throws a `TypeError` before any key
acquisition, blinding or encryption when the id is missing or not a string;
a document with a string id (including the empty string) passes validation
and is encrypted when a key is available. -/
theorem c8_encrypt_validates_id (p : Platform) (doc : Json) :
    (doc.docIdString = none →
      ∀ st, RemoteStorage._encrypt p st doc = Except.error (JsError.typeError
        "\"doc\" must be an object with an \"id\" string property.")) ∧
    (∀ st k id, st.keyCache.masterKey = some k → doc.docIdString = some id →
      (RemoteStorage._encrypt p st doc).isOk = true) := by
  constructor
  · intro h st
    unfold RemoteStorage._encrypt
    rw [h]
  · intro st k id hcache hid
    rw [encrypt_ok p st k doc id hcache hid]
    rfl

/-- Witness for C8 (amended): a non-object doc is rejected; a doc with a
string id is encrypted. -/
theorem c8_witness :
    RemoteStorage._encrypt demoPlatform demoStorage Json.null =
      Except.error (JsError.typeError
        "\"doc\" must be an object with an \"id\" string property.") ∧
    (RemoteStorage._encrypt demoPlatform demoStorage demoDoc).isOk = true :=
  ⟨(c8_encrypt_validates_id demoPlatform Json.null).1 rfl demoStorage,
    (c8_encrypt_validates_id demoPlatform demoDoc).2 demoStorage demoMasterKey
      "foo" rfl rfl⟩

/-- C8 counterexample: a document whose id is the empty string is accepted
by `_encrypt` (the claim requires `_encrypt` to fail on it). -/
theorem c8_counterexample :
    (RemoteStorage._encrypt demoPlatform demoStorage
      (Json.obj [("id", Json.str "")])).isOk = true := by
  rfl

/-- C9 (amended): for every document with a string id and an available
master key, `update` PUTs the encoded `EncryptedDocument` to
`documents/{blinded id}` and resolves to the boolean `true` (not the stored
record). -/
theorem c9_update_returns_true (p : Platform) (st : RemoteStorage)
    (k : MasterKey) (doc : Json) (id : String)
    (hcache : st.keyCache.masterKey = some k)
    (hid : doc.docIdString = some id) :
    RemoteStorage.update p st doc = Except.ok true ∧
    ∃ ed, RemoteStorage._encrypt p st doc = Except.ok ed ∧
      RemoteStorage.updateRequest p st doc =
        Except.ok (st.urls.documents ++ "/" ++ encodeURIComponent ed.id, ed) := by
  have henc := encrypt_ok p st k doc id hcache hid
  refine ⟨?_, _, henc, ?_⟩
  · unfold RemoteStorage.update
    rw [henc]
  · unfold RemoteStorage.updateRequest
    rw [henc]

/-- Witness for C9 (amended). -/
theorem c9_witness :
    RemoteStorage.update demoPlatform demoStorage demoDoc = Except.ok true ∧
    ∃ ed, RemoteStorage._encrypt demoPlatform demoStorage demoDoc =
        Except.ok ed ∧
      RemoteStorage.updateRequest demoPlatform demoStorage demoDoc =
        Except.ok (demoStorage.urls.documents ++ "/" ++
          encodeURIComponent ed.id, ed) :=
  c9_update_returns_true demoPlatform demoStorage demoMasterKey demoDoc "foo"
    rfl rfl

/-- C9 counterexample: at a concrete document, `update` resolves to the
boolean `true`, not to the stored `EncryptedDocument` record the claim
promises. -/
theorem c9_counterexample :
    RemoteStorage.update demoPlatform demoStorage demoDoc = Except.ok true := by
  rfl

/-- C1: for every document with a string id, a master key and an index set,
decoding the encrypted document produced by encoding it (`_encrypt` followed
by `_decrypt` under the same key) returns the cleartext object itself — its
`id` equal to the original id and its fields those of the document after a
JSON round-trip (the round-trip being the stated cipher and parse
hypotheses); the outer blinded id is not part of the returned object. -/
theorem c1_encrypt_decrypt_roundtrip (p : Platform) (st : RemoteStorage)
    (k : MasterKey) (doc : Json) (id : String)
    (hcache : st.keyCache.masterKey = some k)
    (hid : doc.docIdString = some id)
    (hcipher : p.decryptBytes k.kek
        (p.encryptBytes k.kek (utf8 (Json.stringify doc))) =
      some (utf8 (Json.stringify doc)))
    (hparse : p.jsonParse (Json.stringify doc) = some doc) :
    ∃ ed, RemoteStorage._encrypt p st doc = Except.ok ed ∧
      RemoteStorage._decrypt p st ed = Except.ok doc := by
  refine ⟨_, encrypt_ok p st k doc id hcache hid, ?_⟩
  exact decrypt_ok p st k _ doc id hcache
    (decryptObject_encryptObject p k doc hcipher hparse) hid

/-- Witness for C1 at a concrete document and platform. -/
theorem c1_witness :
    ∃ ed, RemoteStorage._encrypt demoPlatform demoStorage demoDoc =
        Except.ok ed ∧
      RemoteStorage._decrypt demoPlatform demoStorage ed =
        Except.ok demoDoc :=
  c1_encrypt_decrypt_roundtrip demoPlatform demoStorage demoMasterKey demoDoc
    "foo" rfl rfl rfl rfl

/-- C3: blinding is deterministic — `blind` and `_blindAttribute` are
functions of the key and input, so identical inputs give identical tokens —
and the id token is the same across operations: the id stored by
`_encrypt` (used by `insert` and `update`), the URL `update` PUTs to, and
the URL built by `_getEncryptedDocUrl` (used by `get` and `delete`) all use
the one token `blind(k, id)`. -/
theorem c3_blind_deterministic (p : Platform) (st : RemoteStorage)
    (k : MasterKey) (x attrKey : String) (attrValue doc : Json) (id : String)
    (hcache : st.keyCache.masterKey = some k)
    (hid : doc.docIdString = some id) :
    MasterKey.blind p k x = MasterKey.blind p k x ∧
    RemoteStorage._blindAttribute p k attrKey attrValue =
      RemoteStorage._blindAttribute p k attrKey attrValue ∧
    (∃ ed, RemoteStorage._encrypt p st doc = Except.ok ed ∧
      ed.id = MasterKey.blind p k id ∧
      RemoteStorage.updateRequest p st doc = Except.ok
        (st.urls.documents ++ "/" ++
          encodeURIComponent (MasterKey.blind p k id), ed)) ∧
    RemoteStorage._getEncryptedDocUrl p st id = Except.ok
      (st.urls.documents ++ "/" ++
        encodeURIComponent (MasterKey.blind p k id)) := by
  have henc := encrypt_ok p st k doc id hcache hid
  refine ⟨rfl, rfl, ⟨_, henc, rfl, ?_⟩, ?_⟩
  · unfold RemoteStorage.updateRequest
    rw [henc]
    rfl
  · unfold RemoteStorage._getEncryptedDocUrl RemoteStorage.getMasterKey
    rw [hcache]
    rfl

/-- Witness for C3 at a concrete key, id and document. -/
theorem c3_witness :
    MasterKey.blind demoPlatform demoMasterKey "x" =
      MasterKey.blind demoPlatform demoMasterKey "x" ∧
    RemoteStorage._blindAttribute demoPlatform demoMasterKey "a"
        (Json.num 1) =
      RemoteStorage._blindAttribute demoPlatform demoMasterKey "a"
        (Json.num 1) ∧
    (∃ ed, RemoteStorage._encrypt demoPlatform demoStorage demoDoc =
        Except.ok ed ∧
      ed.id = MasterKey.blind demoPlatform demoMasterKey "foo" ∧
      RemoteStorage.updateRequest demoPlatform demoStorage demoDoc =
        Except.ok (demoStorage.urls.documents ++ "/" ++
          encodeURIComponent
            (MasterKey.blind demoPlatform demoMasterKey "foo"), ed)) ∧
    RemoteStorage._getEncryptedDocUrl demoPlatform demoStorage "foo" =
      Except.ok (demoStorage.urls.documents ++ "/" ++
        encodeURIComponent (MasterKey.blind demoPlatform demoMasterKey "foo")) :=
  c3_blind_deterministic demoPlatform demoStorage demoMasterKey "x" "a"
    (Json.num 1) demoDoc "foo" rfl rfl

/-- C4: encoding a document emits exactly one blinded attribute per document
key contained in the index set — the attribute list is the blinding map over
the filtered field list, its length is the number of indexed document keys,
and it is empty when no document key is indexed. -/
theorem c4_index_set_effect (p : Platform) (st : RemoteStorage)
    (k : MasterKey) (fields : List (String × Json)) (id : String)
    (hcache : st.keyCache.masterKey = some k)
    (hid : (Json.obj fields).docIdString = some id) :
    ∃ ed, RemoteStorage._encrypt p st (Json.obj fields) = Except.ok ed ∧
      ed.attributes =
        (fields.filter (fun kv => st.indexes.contains kv.1)).map
          (fun kv => RemoteStorage._blindAttribute p k kv.1 kv.2) ∧
      ed.attributes.length =
        (fields.filter (fun kv => st.indexes.contains kv.1)).length ∧
      ((∀ kv ∈ fields, st.indexes.contains kv.1 = false) →
        ed.attributes = []) := by
  refine ⟨_, encrypt_ok p st k (Json.obj fields) id hcache hid, ?_, ?_, ?_⟩
  · exact createAttributes_eq_filter_map p st k fields
  · rw [createAttributes_eq_filter_map p st k fields]
    exact List.length_map _ _
  · intro hnone
    rw [createAttributes_eq_filter_map p st k fields]
    have hfil : fields.filter (fun kv => st.indexes.contains kv.1) = [] := by
      rw [List.filter_eq_nil_iff]
      intro a ha
      rw [hnone a ha]
      exact Bool.false_ne_true
    rw [hfil]
    rfl

/-- Witness for C4 at a concrete document with one indexed and one
non-indexed key. -/
theorem c4_witness :
    ∃ ed, RemoteStorage._encrypt demoPlatform demoStorage demoDoc =
        Except.ok ed ∧
      ed.attributes =
        ([("id", Json.str "foo"), ("a", Json.num 1)].filter
            (fun kv => demoStorage.indexes.contains kv.1)).map
          (fun kv => RemoteStorage._blindAttribute demoPlatform demoMasterKey
            kv.1 kv.2) ∧
      ed.attributes.length =
        ([("id", Json.str "foo"), ("a", Json.num 1)].filter
          (fun kv => demoStorage.indexes.contains kv.1)).length ∧
      ((∀ kv ∈ [("id", Json.str "foo"), ("a", Json.num 1)],
          demoStorage.indexes.contains kv.1 = false) →
        ed.attributes = []) :=
  c4_index_set_effect demoPlatform demoStorage demoMasterKey
    [("id", Json.str "foo"), ("a", Json.num 1)] "foo" rfl rfl

/-- C2: evaluation of `_blindAttribute` at the failing input
attrKey = `a`, attrValue = `"b"`.  The name token is the blind of the
attribute key as the claim states, and the value token is the blind of the
serialization of the object with the LITERAL property name `key`
(`JSON.stringify({key: value})` in the source), which differs from the blind
of the spec-prescribed computed-key object (shown under an injective HMAC
instantiation). -/
theorem c2_value_token_literal_key :
    (RemoteStorage._blindAttribute demoPlatform demoMasterKey "a"
        (Json.str "b")).name =
      MasterKey.blind demoPlatform demoMasterKey "a" ∧
    (RemoteStorage._blindAttribute demoPlatform demoMasterKey "a"
        (Json.str "b")).value =
      MasterKey.blind demoPlatform demoMasterKey
        (Json.stringify (Json.obj [("key", Json.str "b")])) ∧
    ¬((RemoteStorage._blindAttribute demoPlatform demoMasterKey "a"
        (Json.str "b")).value =
      MasterKey.blind demoPlatform demoMasterKey
        (Json.stringify (Json.obj [("a", Json.str "b")]))) := by
  refine ⟨rfl, rfl, ?_⟩
  decide

/-- Follows the amended claim's words: a non-empty string (JS string
truthiness). -/
def isNonEmptyString : Json → Bool
  | Json.str s => decide (s ≠ "")
  | _ => false

/-- Follows the claim's words, amended at the `has`-array case: the filter
is well-formed when exactly one of `equals` and `has` is defined, `equals`
is an object or an array of objects (in the JS sense: non-null values of
type object), and `has` is a string or an array of NON-EMPTY strings.  The
amendment relative to the claim: elements of a `has` array must be
non-empty, because the source tests each element for truthiness. -/
def wellFormedFilter (equals has : Option Json) : Bool :=
  match equals, has with
  | some eq, none =>
    (match eq with
     | Json.arr xs => xs.all isTruthyObject
     | Json.obj _ => true
     | _ => false)
  | none, some h =>
    (match h with
     | Json.arr xs => xs.all isNonEmptyString
     | Json.str _ => true
     | _ => false)
  | _, _ => false

/-- The source's truthy-string test coincides with non-emptiness of a
string. -/
theorem isTruthyString_eq_isNonEmptyString :
    isTruthyString = isNonEmptyString := by
  funext j
  cases j <;> rfl

/-- C5 (amended): `find` raises a validation error exactly when the filter
is malformed — both or neither of `equals`/`has` defined, `equals` not an
object or array of objects, or `has` not a string or array of non-empty
strings — and on a malformed filter `find` fails with that error for every
storage state and server response, so no master key is requested and no
request is sent. -/
theorem c5_find_validation (p : Platform) (equals has : Option Json) :
    (findValidate equals has = none ↔
      wellFormedFilter equals has = true) ∧
    (∀ e, findValidate equals has = some e →
      ∀ st response,
        RemoteStorage.find p st equals has response = Except.error e) := by
  constructor
  · cases equals with
    | none =>
      cases has with
      | none => simp [findValidate, wellFormedFilter]
      | some h =>
        cases h with
        | arr xs =>
          rw [show findValidate none (some (Json.arr xs)) =
              (if xs.all isTruthyString then none
               else some (JsError.typeError
                 "\"has\" must be an array of strings.")) from rfl]
          rw [isTruthyString_eq_isNonEmptyString]
          by_cases hb : xs.all isNonEmptyString <;>
            simp [wellFormedFilter, hb]
        | str s => simp [findValidate, wellFormedFilter, isStringJson]
        | null => simp [findValidate, wellFormedFilter, isStringJson]
        | bool b => simp [findValidate, wellFormedFilter, isStringJson]
        | num n => simp [findValidate, wellFormedFilter, isStringJson]
        | obj fs => simp [findValidate, wellFormedFilter, isStringJson]
    | some eq =>
      cases has with
      | some h => simp [findValidate, wellFormedFilter]
      | none =>
        cases eq with
        | arr xs =>
          by_cases hb : xs.all isTruthyObject <;>
            simp [findValidate, wellFormedFilter, hb]
        | obj fs => simp [findValidate, wellFormedFilter, isTruthyObject]
        | str s => simp [findValidate, wellFormedFilter, isTruthyObject]
        | null => simp [findValidate, wellFormedFilter, isTruthyObject]
        | bool b => simp [findValidate, wellFormedFilter, isTruthyObject]
        | num n => simp [findValidate, wellFormedFilter, isTruthyObject]
  · intro e he st response
    unfold RemoteStorage.find
    rw [he]

/-- Witness for C5 (amended): a filter with neither parameter fails
identically on a storage with no key and no listener. -/
theorem c5_witness :
    RemoteStorage.find demoPlatform noListenerStorage none none [] =
      Except.error
        (JsError.error "Either \"equals\" or \"has\" must be defined.") :=
  (c5_find_validation demoPlatform none none).2 _ rfl noListenerStorage []

/-- C5 counterexample: `has := [""]` is an array of strings — well-formed
per the claim — yet `find` rejects it with a `TypeError` for every storage
state. -/
theorem c5_counterexample :
    ([Json.str ""].all isStringJson = true) ∧
    findValidate none (some (Json.arr [Json.str ""])) =
      some (JsError.typeError "\"has\" must be an array of strings.") ∧
    RemoteStorage.find demoPlatform noListenerStorage none
        (some (Json.arr [Json.str ""])) [] =
      Except.error
        (JsError.typeError "\"has\" must be an array of strings.") :=
  ⟨rfl, rfl, rfl⟩
